import Mathlib

/-!
Verification of the janelia-flyem/dvid-utils import drivers.

The repository contains three batch import drivers that shell out to
the external `dvid` command-line tool:

  * `raveler/main.go` — the tile-server importer: given a uuid, dataset
    name, tiles directory, a voxel offset and a size, it walks the tile
    grid intersecting that range and issues one `server-add` call per
    tile per z-slice, conditionally for superpixel and grayscale trees.

  * the VoxelProof fixed-volume importer (`src/unnamed/part_000`) — it
    initializes a fresh datastore, starts a server, creates a grayscale
    and a labels dataset, then imports grayscale tiles followed by label
    tiles over a hard-coded 700 x 700 x 620 volume.

  * the VoxelProof config-driven importer (a second Go program embedded
    in `raveler/CMakeLists.txt` after the build script) — like the
    fixed-volume variant, but the datastore is initialized from a
    configuration JSON file whose volume extent bounds the tile grid,
    grayscale tiles are `.jpg`, every subprocess error is fatal, and
    the final shutdown is an explicit trailing call (no deferred call,
    no interrupt handler).

The embedding below models each driver's command trace as a function of
an oracle `Nat → Bool` that gives the success of the n-th issued
subprocess command.  `log.Fatal`/`log.Fatalf` are modelled as immediate
termination with exit code 1 (Go's `log.Fatal` calls `os.Exit(1)`,
which does not run deferred functions); a normal return runs the
deferred calls.  Machine integers (`int32` in the source) are modelled
as `Nat`: every quantity involved (tile indices, z slices, sizes) is
non-negative in all executions considered and far below 2^31, so no
overflow or negative-division behavior is reachable.
-/

namespace DvidUtils

/-- Subprocess commands the drivers issue to the external `dvid` binary
(`exec.Command` + `cmd.Output()` in `runCommand`).  `dataset name typeName`
is `dvid dataset <name> <typeName>`; `serverAdd ds uuid offset path` is
`dvid <ds> server-add <uuid> <offset> <path>`; `shutdown` is
`dvid shutdown`. -/
inductive Cmd where
  | dataset (name typeName : String)
  | serverAdd (dataset uuid offset path : String)
  | shutdown
  deriving DecidableEq

/-- Issue one command: append it to the trace; its success is the oracle's
verdict at the command's position in the trace. -/
def issue (oracle : Nat → Bool) (s : List Cmd) (c : Cmd) : List Cmd × Bool :=
  (s ++ [c], oracle s.length)

/-- Run a list of commands in order, each via `runCommand`, stopping at the
first failure (the caller's `log.Fatalf` on a non-nil error).  Returns the
commands actually issued (the failing one included) and whether all
succeeded. -/
def runCmds (oracle : Nat → Bool) (s : List Cmd) (cs : List Cmd) : List Cmd × Bool :=
  match cs with
  | [] => (s, true)
  | c :: rest =>
      let s1 := s ++ [c]
      if oracle s.length then runCmds oracle s1 rest else (s1, false)

/-- Models `fmt.Sprintf("%d,%d,%d", ox, oy, oz)` for non-negative values. -/
def offsetStr (x y z : Nat) : String :=
  toString x ++ "," ++ toString y ++ "," ++ toString z

/-- Models `filepath.Join` on two already-clean path segments. -/
def joinPath (a b : String) : String := a ++ "/" ++ b

/-! ### The VoxelProof fixed-volume driver (src/unnamed/part_000) -/

/-- The hard-coded volume extent: `vol := dvid.VoxelCoord{700, 700, 620}`. -/
def vol : Nat × Nat × Nat := (700, 700, 620)

/-- The x tile indices iterated by the driver:
`tileXMax := vol[0] / tileSize[0]` and `for x := 0; x < tileXMax; x++`. -/
def voxelproofXIndices (tsx : Nat) : List Nat := List.range (vol.1 / tsx)

/-- The y tile indices iterated by the driver:
`tileYMax := vol[1] / tileSize[1]` and `for y := 0; y < tileYMax; y++`. -/
def voxelproofYIndices (tsy : Nat) : List Nat := List.range (vol.2.1 / tsy)

/-- Grayscale tile path of the fixed-volume driver:
`filepath.Join(voxelProofDir, "z", strconv.Itoa(int(z)), fname)` with
`fname := fmt.Sprintf("%d-%d.png", y, x)`. -/
def vpGrayPath (dir : String) (z y x : Nat) : String :=
  joinPath (joinPath (joinPath dir "z") (toString z))
    (toString y ++ "-" ++ toString x ++ ".png")

/-- Label tile path of the fixed-volume driver:
`filepath.Join(voxelProofDir, "comps", "z", strconv.Itoa(int(z)), fname)`
with `fname := fmt.Sprintf("%d-%d.png", y, x)`. -/
def vpLabelPath (dir : String) (z y x : Nat) : String :=
  joinPath (joinPath (joinPath (joinPath dir "comps") "z") (toString z))
    (toString y ++ "-" ++ toString x ++ ".png")

/-- The grayscale import commands of the fixed-volume driver, in issue
order: z ascending over `zrange[0] ≤ z ≤ zrange[1]`, y (tile row) outer,
x (tile column) inner; offset `(x*tsx, y*tsy, z - zmin)`. -/
def vpGrayCmds (uuid dir : String) (zmin zmax tsx tsy : Nat) : List Cmd :=
  (List.range (zmax + 1 - zmin)).flatMap fun dz =>
    let z := zmin + dz
    (voxelproofYIndices tsy).flatMap fun y =>
      (voxelproofXIndices tsx).map fun x =>
        Cmd.serverAdd "grayscale" uuid (offsetStr (x * tsx) (y * tsy) (z - zmin))
          (vpGrayPath dir z y x)

/-- The label import commands of the fixed-volume driver, same ordering
as `vpGrayCmds` with dataset `labels` and the `comps` tile tree. -/
def vpLabelCmds (uuid dir : String) (zmin zmax tsx tsy : Nat) : List Cmd :=
  (List.range (zmax + 1 - zmin)).flatMap fun dz =>
    let z := zmin + dz
    (voxelproofYIndices tsy).flatMap fun y =>
      (voxelproofXIndices tsx).map fun x =>
        Cmd.serverAdd "labels" uuid (offsetStr (x * tsx) (y * tsy) (z - zmin))
          (vpLabelPath dir z y x)

/-- The fixed-volume driver's run after the datastore has been
initialized and the server started (the deferred
`runCommand("dvid", "shutdown")` is registered at that point).  Returns
the issued command trace and the exit code.  The two dataset-creation
calls discard `runCommand`'s error; a failing import call hits
`log.Fatalf`, which exits with code 1 WITHOUT running the deferred
shutdown; a normal return runs the deferred shutdown (its own result
discarded) and exits 0. -/
def voxelproofRun (oracle : Nat → Bool) (uuid dir : String)
    (zmin zmax tsx tsy : Nat) : List Cmd × Nat :=
  let s1 := (issue oracle [] (Cmd.dataset "grayscale" "grayscale8")).1
  let s2 := (issue oracle s1 (Cmd.dataset "labels" "labels32")).1
  let g := runCmds oracle s2 (vpGrayCmds uuid dir zmin zmax tsx tsy)
  if g.2 then
    let l := runCmds oracle g.1 (vpLabelCmds uuid dir zmin zmax tsx tsy)
    if l.2 then ((issue oracle l.1 Cmd.shutdown).1, 0)
    else (l.1, 1)
  else (g.1, 1)

/-- The fixed-volume driver's interrupt handler: on a captured signal it
logs, invokes `runCommand("dvid", "shutdown")` (result discarded) and
calls `os.Exit(0)`. -/
def vpInterruptHandler (oracle : Nat → Bool) (s : List Cmd) : List Cmd × Nat :=
  ((issue oracle s Cmd.shutdown).1, 0)

/-! ### The raveler tile-server driver (raveler/main.go) -/

/-- Fixed tile edge length of the raveler driver: `const tileSize = 1024`. -/
def tileSize : Nat := 1024

/-- Models `%03d` for a non-negative value: decimal digits, left-padded
with zeros to width 3. -/
def pad3 (n : Nat) : String :=
  let s := toString n
  if s.length < 3 then String.mk (List.replicate (3 - s.length) '0') ++ s else s

/-- `tileFilename` of raveler/main.go: the path of a tile relative to the
tiles directory.  Superpixel tiles live under `s`, grayscale under `g`;
a slice at z ≥ 1000 gets a bucket directory `(slice/1000)*1000` and an
unpadded slice number (`%d/0/%d/%d/%s/%d/%d.png`), otherwise there is no
bucket and the slice number is zero-padded to width 3
(`%d/0/%d/%d/%s/%03d.png`). -/
def tileFilename (row col slice : Nat) (superpixel : Bool) : String :=
  let typeDir := if superpixel then "s" else "g"
  if 1000 ≤ slice then
    let sliceDir := slice / 1000 * 1000
    toString tileSize ++ "/0/" ++ toString row ++ "/" ++ toString col ++ "/" ++
      typeDir ++ "/" ++ toString sliceDir ++ "/" ++ toString slice ++ ".png"
  else
    toString tileSize ++ "/0/" ++ toString row ++ "/" ++ toString col ++ "/" ++
      typeDir ++ "/" ++ pad3 slice ++ ".png"

/-- Modelled from the spec: `dvid.VoxelCoord.AddSize` comes from the
external janelia-flyem/dvid dependency and is not under src/.  The spec
defines the range end used for the tile bounds as offset plus size
(`endTile = floor((offset+size)/T)`), so the end voxel is the
componentwise sum. -/
def addSize (c s : Nat × Nat × Nat) : Nat × Nat × Nat :=
  (c.1 + s.1, c.2.1 + s.2.1, c.2.2 + s.2.2)

/-- The inclusive index list of a Go loop `for i := a; i <= b; i++`. -/
def rangeIncl (a b : Nat) : List Nat :=
  (List.range (b + 1 - a)).map (fun i => a + i)

/-- The x tile indices iterated by the raveler driver:
`startTileX := offset[0] / tileSize` to `endTileX := endVoxel[0] / tileSize`,
inclusive. -/
def ravelerXIndices (offset size : Nat × Nat × Nat) : List Nat :=
  rangeIncl (offset.1 / tileSize) ((addSize offset size).1 / tileSize)

/-- The y tile indices iterated by the raveler driver:
`startTileY := offset[1] / tileSize` to `endTileY := endVoxel[1] / tileSize`,
inclusive. -/
def ravelerYIndices (offset size : Nat × Nat × Nat) : List Nat :=
  rangeIncl (offset.2.1 / tileSize) ((addSize offset size).2.1 / tileSize)

/-- The z slices iterated by the raveler driver:
`for z := offset[2]; z <= endVoxel[2]; z++`. -/
def ravelerZIndices (offset size : Nat × Nat × Nat) : List Nat :=
  rangeIncl offset.2.2 (addSize offset size).2.2

/-- The (tileY, tileX) cells of one slice, row-major: tileY outer, tileX
inner. -/
def ravelerCellList (offset size : Nat × Nat × Nat) : List (Nat × Nat) :=
  (ravelerYIndices offset size).flatMap fun y =>
    (ravelerXIndices offset size).map fun x => (y, x)

/-- The commands one grid cell issues: a superpixel `server-add` when
`-superpixels` is set, then a grayscale `server-add` when `-grayscale`
is set; offset string `(tileX*tileSize, tileY*tileSize, z)` and filename
`filepath.Join(tilesDir, tileFilename(tileY, tileX, z, sp))`. -/
def ravCellCmds (loadS loadG : Bool) (tilesDir dsName uuid : String) (z : Nat)
    (yx : Nat × Nat) : List Cmd :=
  let o := offsetStr (yx.2 * tileSize) (yx.1 * tileSize) z
  (if loadS then
      [Cmd.serverAdd dsName uuid o (joinPath tilesDir (tileFilename yx.1 yx.2 z true))]
    else []) ++
  (if loadG then
      [Cmd.serverAdd dsName uuid o (joinPath tilesDir (tileFilename yx.1 yx.2 z false))]
    else [])

/-- One slice's cell loop: per cell the 0–2 conditional import commands,
each fatal on failure (`log.Fatalf`); `numTiles` is incremented once per
completed cell.  Returns (trace, numTiles, ok). -/
def ravCells (oracle : Nat → Bool) (loadS loadG : Bool)
    (tilesDir dsName uuid : String) (z : Nat) :
    List (Nat × Nat) → List Cmd → Nat → List Cmd × Nat × Bool
  | [], s, n => (s, n, true)
  | yx :: rest, s, n =>
      let r := runCmds oracle s (ravCellCmds loadS loadG tilesDir dsName uuid z yx)
      if r.2 then ravCells oracle loadS loadG tilesDir dsName uuid z rest r.1 (n + 1)
      else (r.1, n, false)

/-- Result of a raveler run: the issued commands, the per-slice progress
lines (`Added %d %s tiles from z = %d...` as a (numTiles, datasetName, z)
triple), and the exit code. -/
structure RavOut where
  cmds : List Cmd
  prints : List (Nat × String × Nat)
  exit : Nat
  deriving DecidableEq

/-- The z loop of the raveler driver: per slice, reset `numTiles` to 0,
run the cell loop, and on completion print the progress line; a
fatal import error terminates with exit code 1 and no further
slices. -/
def ravSlices (oracle : Nat → Bool) (loadS loadG : Bool)
    (tilesDir dsName uuid : String) (cells : List (Nat × Nat)) :
    List Nat → List Cmd → List (Nat × String × Nat) → RavOut
  | [], s, ps => ⟨s, ps, 0⟩
  | z :: rest, s, ps =>
      let r := ravCells oracle loadS loadG tilesDir dsName uuid z cells s 0
      if r.2.2 then
        ravSlices oracle loadS loadG tilesDir dsName uuid cells rest r.1
          (ps ++ [(r.2.1, dsName, z)])
      else ⟨r.1, ps, 1⟩

/-- The raveler driver's import phase, after argument and coordinate
parsing: tile bounds from the offset and size, then the z / tileY /
tileX loops. -/
def ravelerRun (oracle : Nat → Bool) (loadS loadG : Bool)
    (tilesDir dsName uuid : String) (offset size : Nat × Nat × Nat) : RavOut :=
  ravSlices oracle loadS loadG tilesDir dsName uuid
    (ravelerCellList offset size) (ravelerZIndices offset size) [] []

/-! ### Datastore initialization output scanning (initDatastore) -/

/-- Models `fmt.Sscanf(line, "Root node UUID: %s", &uuidStr)` returning
`n == 1` with the scanned token: the literal prefix must match, then
`%s` skips leading spaces and reads a non-empty maximal run of
non-whitespace characters.  (Go's scanner also lets the format's spaces
match longer whitespace runs; the lines at issue are single-spaced.) -/
def scanRootUUID (line : String) : Option String :=
  let cs := line.data
  if cs.take 15 = "Root node UUID:".data then
    let rest := (cs.drop 15).dropWhile (fun c => c.isWhitespace)
    let tok := rest.takeWhile (fun c => !c.isWhitespace)
    if tok.isEmpty then none else some (String.mk tok)
  else none

/-- The diagnostic of `initDatastore` when the stream ends before a
match: `log.Fatalln("Did not detect root version UUID in output of dvid init!")`. -/
def noUUIDMsg : String := "Did not detect root version UUID in output of dvid init!"

/-- The scanning loop of `initDatastore`: read lines from the init
subprocess's standard output; a read error (end of stream) is fatal with
`noUUIDMsg`; the first line on which the Sscanf pattern matches returns
its token as the datastore handle. -/
def initDatastoreScan : List String → Except String String
  | [] => Except.error noUUIDMsg
  | l :: rest =>
      match scanRootUUID l with
      | some tok => Except.ok tok
      | none => initDatastoreScan rest

/-! ### Claim-side definitions, written from the spec's words -/

/-- Follows the spec's words for the layout-A path rule:
`"<T>/0/<tileRow>/<tileCol>/<kind>/<bucket>/<z>.png"` with kind `g` for
grayscale and `s` for superpixel; for z ≥ 1000 a bucket directory
`floor(z/1000)*1000` and z with no leading zeros, otherwise no bucket
and z zero-padded to 3 digits. -/
def specLayoutAPath (t row col z : Nat) (superpixel : Bool) : String :=
  let kind := if superpixel then "s" else "g"
  if 1000 ≤ z then
    toString t ++ "/0/" ++ toString row ++ "/" ++ toString col ++ "/" ++
      kind ++ "/" ++ toString (z / 1000 * 1000) ++ "/" ++ toString z ++ ".png"
  else
    toString t ++ "/0/" ++ toString row ++ "/" ++ toString col ++ "/" ++
      kind ++ "/" ++ pad3 z ++ ".png"

/-- Follows the claim's words for the tile-index bounds: the inclusive
indices `startTile = floor(offset/T)` to `endTile = floor((offset+size)/T)`. -/
def claimedTileRange (offset size t : Nat) : List Nat :=
  rangeIncl (offset / t) ((offset + size) / t)

/-! ### Positional-argument validation -/

/-- Outcome of reading the required positional arguments after flag
parsing. -/
inductive ArgOutcome where
  /-- The guard fired: `usage(); os.Exit(2)`. -/
  | usageExit2
  /-- An out-of-bounds slice index was read: Go run-time panic. -/
  | panicOOB
  /-- The fixed-volume driver proceeds with its four arguments. -/
  | proceed (a0 a1 a2 a3 : String)
  /-- The raveler driver proceeds with its five arguments. -/
  | proceedR (a0 a1 a2 a3 a4 : String)
  deriving DecidableEq

/-- Argument validation of the fixed-volume driver:
`if len(args) < 3 { usage(); os.Exit(2) }` followed by reads of
`args[0]` .. `args[3]`. -/
def vpParseArgs (args : List String) : ArgOutcome :=
  if args.length < 3 then ArgOutcome.usageExit2
  else
    match args[0]?, args[1]?, args[2]?, args[3]? with
    | some a0, some a1, some a2, some a3 => ArgOutcome.proceed a0 a1 a2 a3
    | _, _, _, _ => ArgOutcome.panicOOB

/-- Argument validation of the raveler driver:
`if len(args) < 5 { usage(); os.Exit(2) }` followed by reads of
`args[0]` .. `args[4]`. -/
def ravelerParseArgs (args : List String) : ArgOutcome :=
  if args.length < 5 then ArgOutcome.usageExit2
  else
    match args[0]?, args[1]?, args[2]?, args[3]?, args[4]? with
    | some a0, some a1, some a2, some a3, some a4 => ArgOutcome.proceedR a0 a1 a2 a3 a4
    | _, _, _, _, _ => ArgOutcome.panicOOB

/-! ### The config-driven VoxelProof driver (embedded in raveler/CMakeLists.txt) -/

/-- Grayscale tile path of the config-driven driver:
`filepath.Join(voxelProofDir, "z", strconv.Itoa(int(z)), fname)` with
`fname := fmt.Sprintf("%d-%d.jpg", y, x)` — this variant does use the
`.jpg` extension for grayscale tiles. -/
def cfgGrayPath (dir : String) (z y x : Nat) : String :=
  joinPath (joinPath (joinPath dir "z") (toString z))
    (toString y ++ "-" ++ toString x ++ ".jpg")

/-- Label tile path of the config-driven driver:
`filepath.Join(voxelProofDir, "comps", "z", strconv.Itoa(int(z)), fname)`
with `fname := fmt.Sprintf("%d-%d.png", y, x)`. -/
def cfgLabelPath (dir : String) (z y x : Nat) : String :=
  joinPath (joinPath (joinPath (joinPath dir "comps") "z") (toString z))
    (toString y ++ "-" ++ toString x ++ ".png")

/-- The x tile indices iterated by the config-driven driver:
`tileXMax := vol.VolumeMax[0] / tileSize[0]` and
`for x := 0; x < tileXMax; x++`, where the volume extent `volx` is read
from the configuration JSON (`dvid.ReadVolumeJSON`). -/
def cfgXIndices (volx tsx : Nat) : List Nat := List.range (volx / tsx)

/-- The y tile indices iterated by the config-driven driver:
`tileYMax := vol.VolumeMax[1] / tileSize[1]` and
`for y := 0; y < tileYMax; y++`. -/
def cfgYIndices (voly tsy : Nat) : List Nat := List.range (voly / tsy)

/-- The grayscale import commands of the config-driven driver, in issue
order: z ascending over `zrange[0] ≤ z ≤ zrange[1]`, y (tile row) outer,
x (tile column) inner; offset `(x*tsx, y*tsy, z - zmin)`. -/
def cfgGrayCmds (uuid dir : String) (zmin zmax tsx tsy volx voly : Nat) : List Cmd :=
  (List.range (zmax + 1 - zmin)).flatMap fun dz =>
    let z := zmin + dz
    (cfgYIndices voly tsy).flatMap fun y =>
      (cfgXIndices volx tsx).map fun x =>
        Cmd.serverAdd "grayscale" uuid (offsetStr (x * tsx) (y * tsy) (z - zmin))
          (cfgGrayPath dir z y x)

/-- The label import commands of the config-driven driver, same ordering
as `cfgGrayCmds` with dataset `labels` and the `comps` tile tree. -/
def cfgLabelCmds (uuid dir : String) (zmin zmax tsx tsy volx voly : Nat) : List Cmd :=
  (List.range (zmax + 1 - zmin)).flatMap fun dz =>
    let z := zmin + dz
    (cfgYIndices voly tsy).flatMap fun y =>
      (cfgXIndices volx tsx).map fun x =>
        Cmd.serverAdd "labels" uuid (offsetStr (x * tsx) (y * tsy) (z - zmin))
          (cfgLabelPath dir z y x)

/-- The config-driven driver's run after the datastore has been
initialized and the server started.  Unlike the fixed-volume variant,
every subprocess result here is checked and is fatal on error
(`log.Fatal` after each `cmd.Output()`), there is no deferred call and
no interrupt handler, and the shutdown is an explicit trailing command:
the run is one fatal-on-first-failure sequence — the two dataset
creations, the grayscale imports, the label imports, the shutdown —
exiting 0 on full success and 1 at the first failing command, which is
then the last command of the trace. -/
def cfgRun (oracle : Nat → Bool) (uuid dir : String)
    (zmin zmax tsx tsy volx voly : Nat) : List Cmd × Nat :=
  let r := runCmds oracle []
    ([Cmd.dataset "grayscale" "grayscale8", Cmd.dataset "labels" "labels32"] ++
      cfgGrayCmds uuid dir zmin zmax tsx tsy volx voly ++
      cfgLabelCmds uuid dir zmin zmax tsx tsy volx voly ++ [Cmd.shutdown])
  (r.1, if r.2 then 0 else 1)

/-! ### Helper lemmas on the execution model -/

/-- The oracle reports success for every command position in `[a, b)`. -/
def GoodFrom (oracle : Nat → Bool) (a b : Nat) : Prop :=
  ∀ j, a ≤ j → j < b → oracle j = true

theorem goodFrom_trans {oracle : Nat → Bool} {a b c : Nat} (hab : GoodFrom oracle a b)
    (hbc : GoodFrom oracle b c) : GoodFrom oracle a c := by
  intro j h1 h2
  by_cases h : j < b
  · exact hab j h1 h
  · exact hbc j (by omega) h2

/-- Case analysis of `runCmds`: either every command succeeded and the
trace is extended by the whole list, or the trace is extended by a
prefix through the first failing command, which is its last element. -/
theorem runCmds_spec (oracle : Nat → Bool) (cs : List Cmd) : ∀ s : List Cmd,
    ((runCmds oracle s cs).2 = true ∧ (runCmds oracle s cs).1 = s ++ cs ∧
      GoodFrom oracle s.length (runCmds oracle s cs).1.length)
    ∨ ((runCmds oracle s cs).2 = false ∧
        ∃ pre c, (runCmds oracle s cs).1 = (s ++ pre) ++ [c] ∧
          (∀ x ∈ pre, x ∈ cs) ∧ c ∈ cs ∧
          oracle (s ++ pre).length = false ∧
          GoodFrom oracle s.length (s ++ pre).length) := by
  induction cs with
  | nil =>
      intro s
      left
      refine ⟨rfl, by simp [runCmds], ?_⟩
      intro j h1 h2
      simp [runCmds] at h2
      omega
  | cons c rest ih =>
      intro s
      by_cases h : oracle s.length = true
      · have hr : runCmds oracle s (c :: rest) = runCmds oracle (s ++ [c]) rest := by
          simp [runCmds, h]
        rcases ih (s ++ [c]) with ⟨h2, htr, hidx⟩ | ⟨h2, pre, c', htr, hpre, hc, hor, hidx⟩
        · left
          rw [hr]
          refine ⟨h2, by rw [htr]; simp, ?_⟩
          intro j h1 hj
          by_cases hje : j < (s ++ [c]).length
          · simp at hje
            have : j = s.length := by omega
            exact this ▸ h
          · exact hidx j (by omega) hj
        · right
          rw [hr]
          refine ⟨h2, c :: pre, c', ?_, ?_, List.mem_cons_of_mem c hc, ?_, ?_⟩
          · rw [htr]; simp
          · intro x hx
            rcases List.mem_cons.mp hx with h1 | h1
            · exact h1 ▸ List.mem_cons_self c rest
            · exact List.mem_cons_of_mem c (hpre x h1)
          · have : ((s ++ [c]) ++ pre).length = (s ++ c :: pre).length := by simp
            exact this ▸ hor
          · intro j h1 hj
            simp at hj
            by_cases hje : j = s.length
            · exact hje ▸ h
            · exact hidx j (by simp; omega) (by simp; omega)
      · right
        have hb : oracle s.length = false := by
          cases hh : oracle s.length
          · rfl
          · exact absurd hh h
        have hr : runCmds oracle s (c :: rest) = (s ++ [c], false) := by
          simp [runCmds, hb]
        rw [hr]
        refine ⟨rfl, [], c, by simp, by simp, List.mem_cons_self c rest, by simp [hb], ?_⟩
        intro j h1 hj
        simp at hj
        omega

/-- Case analysis of the cell loop: on success the tile counter advances
by the number of cells and all issued commands succeeded; otherwise the
trace ends at the first failing command. -/
theorem ravCells_spec (oracle : Nat → Bool) (loadS loadG : Bool) (d ds u : String)
    (z : Nat) : ∀ (cells : List (Nat × Nat)) (s : List Cmd) (n : Nat),
    ((ravCells oracle loadS loadG d ds u z cells s n).2.2 = true ∧
      (ravCells oracle loadS loadG d ds u z cells s n).2.1 = n + cells.length ∧
      GoodFrom oracle s.length (ravCells oracle loadS loadG d ds u z cells s n).1.length)
    ∨ ((ravCells oracle loadS loadG d ds u z cells s n).2.2 = false ∧
        ∃ t c, (ravCells oracle loadS loadG d ds u z cells s n).1 = t ++ [c] ∧
          oracle t.length = false ∧ GoodFrom oracle s.length t.length) := by
  intro cells
  induction cells with
  | nil =>
      intro s n
      left
      refine ⟨rfl, by simp [ravCells], ?_⟩
      intro j h1 h2
      simp [ravCells] at h2
      omega
  | cons yx rest ih =>
      intro s n
      rcases runCmds_spec oracle (ravCellCmds loadS loadG d ds u z yx) s with
        ⟨hok, _, hgood⟩ | ⟨hfail, pre, c, htr, _, _, hor, hgood⟩
      · have hr : ravCells oracle loadS loadG d ds u z (yx :: rest) s n =
            ravCells oracle loadS loadG d ds u z rest
              (runCmds oracle s (ravCellCmds loadS loadG d ds u z yx)).1 (n + 1) := by
          simp [ravCells, hok]
        rw [hr]
        rcases ih (runCmds oracle s (ravCellCmds loadS loadG d ds u z yx)).1 (n + 1) with
          ⟨h2, hcount, hgood2⟩ | ⟨h2, t, c, htr2, hor2, hgood2⟩
        · left
          refine ⟨h2, by rw [hcount]; simp; omega, goodFrom_trans hgood hgood2⟩
        · right
          exact ⟨h2, t, c, htr2, hor2, goodFrom_trans hgood hgood2⟩
      · have hr : ravCells oracle loadS loadG d ds u z (yx :: rest) s n =
            ((runCmds oracle s (ravCellCmds loadS loadG d ds u z yx)).1, n, false) := by
          simp [ravCells, hfail]
        rw [hr]
        right
        exact ⟨rfl, s ++ pre, c, htr, hor, hgood⟩

/-- With both load flags unset a cell issues no command, so the cell loop
leaves the trace unchanged, counts every cell, and always succeeds. -/
theorem ravCells_noflags (oracle : Nat → Bool) (d ds u : String) (z : Nat) :
    ∀ (cells : List (Nat × Nat)) (s : List Cmd) (n : Nat),
      ravCells oracle false false d ds u z cells s n = (s, n + cells.length, true) := by
  intro cells
  induction cells with
  | nil => intro s n; simp [ravCells]
  | cons yx rest ih =>
      intro s n
      have hc : ravCellCmds false false d ds u z yx = [] := by simp [ravCellCmds]
      have hr : runCmds oracle s (ravCellCmds false false d ds u z yx) = (s, true) := by
        rw [hc]; rfl
      simp [ravCells, hr, ih]
      omega

/-- Every per-slice progress line printed by the z loop carries the full
grid-cell count. -/
theorem ravSlices_prints (oracle : Nat → Bool) (loadS loadG : Bool) (d ds u : String)
    (cells : List (Nat × Nat)) :
    ∀ (zs : List Nat) (s : List Cmd) (ps : List (Nat × String × Nat)),
      (∀ p ∈ ps, p.1 = cells.length) →
      ∀ p ∈ (ravSlices oracle loadS loadG d ds u cells zs s ps).prints,
        p.1 = cells.length := by
  intro zs
  induction zs with
  | nil => intro s ps h; simpa [ravSlices] using h
  | cons z rest ih =>
      intro s ps h
      rcases ravCells_spec oracle loadS loadG d ds u z cells s 0 with
        ⟨hok, hcount, _⟩ | ⟨hfail, _⟩
      · have hr : ravSlices oracle loadS loadG d ds u cells (z :: rest) s ps =
            ravSlices oracle loadS loadG d ds u cells rest
              (ravCells oracle loadS loadG d ds u z cells s 0).1
              (ps ++ [((ravCells oracle loadS loadG d ds u z cells s 0).2.1, ds, z)]) := by
          simp [ravSlices, hok]
        rw [hr]
        apply ih
        intro p hp
        rcases List.mem_append.mp hp with h1 | h1
        · exact h p h1
        · simp at h1
          rw [h1, hcount]
          simp
      · have hr : ravSlices oracle loadS loadG d ds u cells (z :: rest) s ps =
            ⟨(ravCells oracle loadS loadG d ds u z cells s 0).1, ps, 1⟩ := by
          simp [ravSlices, hfail]
        rw [hr]
        exact h

/-- A fatal import error inside the z loop terminates the run with the
failing command last in the trace, every import command before it having
succeeded. -/
theorem ravSlices_fatal (oracle : Nat → Bool) (loadS loadG : Bool) (d ds u : String)
    (cells : List (Nat × Nat)) :
    ∀ (zs : List Nat) (s : List Cmd) (ps : List (Nat × String × Nat)),
      (ravSlices oracle loadS loadG d ds u cells zs s ps).exit = 1 →
      ∃ t c, (ravSlices oracle loadS loadG d ds u cells zs s ps).cmds = t ++ [c] ∧
        oracle t.length = false ∧ GoodFrom oracle s.length t.length := by
  intro zs
  induction zs with
  | nil =>
      intro s ps h
      simp [ravSlices] at h
  | cons z rest ih =>
      intro s ps h
      rcases ravCells_spec oracle loadS loadG d ds u z cells s 0 with
        ⟨hok, _, hgood⟩ | ⟨hfail, t, c, htr, hor, hgood⟩
      · have hr : ravSlices oracle loadS loadG d ds u cells (z :: rest) s ps =
            ravSlices oracle loadS loadG d ds u cells rest
              (ravCells oracle loadS loadG d ds u z cells s 0).1
              (ps ++ [((ravCells oracle loadS loadG d ds u z cells s 0).2.1, ds, z)]) := by
          simp [ravSlices, hok]
        rw [hr] at h ⊢
        obtain ⟨t, c, htr2, hor2, hgood2⟩ := ih _ _ h
        exact ⟨t, c, htr2, hor2, goodFrom_trans hgood hgood2⟩
      · have hr : ravSlices oracle loadS loadG d ds u cells (z :: rest) s ps =
            ⟨(ravCells oracle loadS loadG d ds u z cells s 0).1, ps, 1⟩ := by
          simp [ravSlices, hfail]
        rw [hr]
        exact ⟨t, c, htr, hor, hgood⟩

/-- With both load flags unset the whole run issues no command, prints
one full-count line per slice, and exits 0. -/
theorem ravSlices_noflags (oracle : Nat → Bool) (d ds u : String)
    (cells : List (Nat × Nat)) :
    ∀ (zs : List Nat) (s : List Cmd) (ps : List (Nat × String × Nat)),
      ravSlices oracle false false d ds u cells zs s ps =
        ⟨s, ps ++ zs.map (fun z => (cells.length, ds, z)), 0⟩ := by
  intro zs
  induction zs with
  | nil => intro s ps; simp [ravSlices]
  | cons z rest ih =>
      intro s ps
      have hr : ravCells oracle false false d ds u z cells s 0 =
          (s, cells.length, true) := by
        rw [ravCells_noflags]
        simp
      simp [ravSlices, hr, ih]

/-- Every command of the grayscale import phase is a `server-add` into
the `grayscale` dataset at the run's uuid. -/
theorem mem_vpGrayCmds {uuid dir : String} {zmin zmax tsx tsy : Nat} {c : Cmd}
    (h : c ∈ vpGrayCmds uuid dir zmin zmax tsx tsy) :
    ∃ o p, c = Cmd.serverAdd "grayscale" uuid o p := by
  simp [vpGrayCmds, List.mem_flatMap, List.mem_map] at h
  obtain ⟨dz, h1, y, h2, x, h3, hc⟩ := h
  exact ⟨_, _, hc.symm⟩

/-- Every command of the label import phase is a `server-add` into the
`labels` dataset at the run's uuid. -/
theorem mem_vpLabelCmds {uuid dir : String} {zmin zmax tsx tsy : Nat} {c : Cmd}
    (h : c ∈ vpLabelCmds uuid dir zmin zmax tsx tsy) :
    ∃ o p, c = Cmd.serverAdd "labels" uuid o p := by
  simp [vpLabelCmds, List.mem_flatMap, List.mem_map] at h
  obtain ⟨dz, h1, y, h2, x, h3, hc⟩ := h
  exact ⟨_, _, hc.symm⟩

/-- Full case analysis of a fixed-volume run: either every import call
succeeded and the run ends with the deferred shutdown and exit 0, or the
run dies at the first failing grayscale (resp. label) import call with
exit 1, that call last in the trace and no shutdown issued. -/
theorem voxelproofRun_cases (oracle : Nat → Bool) (uuid dir : String)
    (zmin zmax tsx tsy : Nat) :
    (voxelproofRun oracle uuid dir zmin zmax tsx tsy =
        ([Cmd.dataset "grayscale" "grayscale8", Cmd.dataset "labels" "labels32"] ++
          vpGrayCmds uuid dir zmin zmax tsx tsy ++
          vpLabelCmds uuid dir zmin zmax tsx tsy ++ [Cmd.shutdown], 0)) ∨
    (∃ pre c, c ∈ vpGrayCmds uuid dir zmin zmax tsx tsy ∧
        (∀ x ∈ pre, x ∈ vpGrayCmds uuid dir zmin zmax tsx tsy) ∧
        voxelproofRun oracle uuid dir zmin zmax tsx tsy =
          (([Cmd.dataset "grayscale" "grayscale8", Cmd.dataset "labels" "labels32"] ++
            pre) ++ [c], 1) ∧
        oracle ([Cmd.dataset "grayscale" "grayscale8", Cmd.dataset "labels" "labels32"] ++
          pre).length = false ∧
        GoodFrom oracle 2 ([Cmd.dataset "grayscale" "grayscale8",
          Cmd.dataset "labels" "labels32"] ++ pre).length) ∨
    (∃ pre c, c ∈ vpLabelCmds uuid dir zmin zmax tsx tsy ∧
        (∀ x ∈ pre, x ∈ vpLabelCmds uuid dir zmin zmax tsx tsy) ∧
        voxelproofRun oracle uuid dir zmin zmax tsx tsy =
          (([Cmd.dataset "grayscale" "grayscale8", Cmd.dataset "labels" "labels32"] ++
            vpGrayCmds uuid dir zmin zmax tsx tsy ++ pre) ++ [c], 1) ∧
        oracle ([Cmd.dataset "grayscale" "grayscale8", Cmd.dataset "labels" "labels32"] ++
          vpGrayCmds uuid dir zmin zmax tsx tsy ++ pre).length = false ∧
        GoodFrom oracle 2 ([Cmd.dataset "grayscale" "grayscale8",
          Cmd.dataset "labels" "labels32"] ++
          vpGrayCmds uuid dir zmin zmax tsx tsy ++ pre).length) := by
  rcases runCmds_spec oracle (vpGrayCmds uuid dir zmin zmax tsx tsy)
      [Cmd.dataset "grayscale" "grayscale8", Cmd.dataset "labels" "labels32"] with
    ⟨hgok, hgtr, hggood⟩ | ⟨hgfail, gpre, gc, hgtr, hgpre, hgc, hgor, hggood⟩
  · rcases runCmds_spec oracle (vpLabelCmds uuid dir zmin zmax tsx tsy)
        (runCmds oracle [Cmd.dataset "grayscale" "grayscale8",
          Cmd.dataset "labels" "labels32"] (vpGrayCmds uuid dir zmin zmax tsx tsy)).1 with
      ⟨hlok, hltr, hlgood⟩ | ⟨hlfail, lpre, lc, hltr, hlpre, hlc, hlor, hlgood⟩
    · left
      simp only [voxelproofRun, issue]
      simp only [List.nil_append, List.singleton_append]
      rw [hgok]
      simp only [if_true]
      rw [hlok]
      simp only [if_true]
      rw [hltr, hgtr]
    · right; right
      refine ⟨lpre, lc, hlc, hlpre, ?_, ?_, ?_⟩
      · simp only [voxelproofRun, issue]
        simp only [List.nil_append, List.singleton_append]
        rw [hgok]
        simp only [if_true]
        rw [hlfail]
        simp only [Bool.false_eq_true, if_false]
        rw [hltr, hgtr]
      · rw [hgtr] at hlor
        exact hlor
      · rw [hgtr] at hlgood hggood
        exact goodFrom_trans hggood hlgood
  · right; left
    refine ⟨gpre, gc, hgc, hgpre, ?_, hgor, ?_⟩
    · simp only [voxelproofRun, issue]
      simp only [List.nil_append, List.singleton_append]
      rw [hgfail]
      simp only [Bool.false_eq_true, if_false]
      rw [hgtr]
    · intro j h2 hj
      exact hggood j h2 hj

/-! ### Claim theorems -/

/-- C1: the claim says the fixed-volume driver's grayscale tile path
ends in `.jpg` (as the file's own header comment and the spec state),
but the code formats the grayscale filename with `%d-%d.png`: at
(row=1, col=4, z=10) the grayscale path resolves to `root/z/10/1-4.png`,
not `root/z/10/1-4.jpg`.  The label path does match the claim. -/
theorem voxelproof_gray_tile_extension_eval :
    vpGrayPath "root" 10 1 4 = "root/z/10/1-4.png" ∧
    vpLabelPath "root" 10 1 4 = "root/comps/z/10/1-4.png" := by
  constructor <;> rfl

/-- C2: the raveler driver exits with usage at fewer than 5 positional
arguments, and the fixed-volume driver exits with usage at fewer than 3;
but the fixed-volume driver requires 4 arguments (its usage text lists
four), and with exactly 3 it reads `args[3]` out of bounds and panics
instead of printing usage. -/
theorem argument_validation_eval :
    ravelerParseArgs ["u", "ds", "tiles", "0,0,0"] = ArgOutcome.usageExit2 ∧
    ravelerParseArgs ["u", "ds", "tiles", "0,0,0", "1,1,1"] =
      ArgOutcome.proceedR "u" "ds" "tiles" "0,0,0" "1,1,1" ∧
    vpParseArgs ["dir", "0,619"] = ArgOutcome.usageExit2 ∧
    vpParseArgs ["dir", "0,619", "100,100"] = ArgOutcome.panicOOB := by
  refine ⟨by decide, by decide, by decide, by decide⟩

/-- C3 counterexample: for the fixed-volume driver with tile size 100
(volume x extent 700, implicit offset 0), the claim's inclusive bounds
`floor(0/100) .. floor((0+700)/100)` name tiles 0..7, but the driver
iterates x tile indices 0..6 (`for x := 0; x < vol[0]/tileSize[0]`). -/
theorem voxelproof_tile_range_counterexample :
    voxelproofXIndices 100 = [0, 1, 2, 3, 4, 5, 6] ∧
    claimedTileRange 0 700 100 = [0, 1, 2, 3, 4, 5, 6, 7] := by
  refine ⟨by decide, by decide⟩

/-- C3 amended: the raveler (tile-server) driver iterates exactly the
inclusive indices `floor(offset/T) .. floor((offset+size)/T)` with
T = 1024 on each horizontal axis, `startTile ≤ endTile` always holds and
the range is never empty (a nonzero size smaller than one tile yields
the single covering tile, e.g. size 5 at offset 0); the fixed-volume
driver instead iterates tile indices exclusively: `t < floor(vol/T)`. -/
theorem tile_bounds_amended :
    (∀ offset size : Nat × Nat × Nat,
        ravelerXIndices offset size = claimedTileRange offset.1 size.1 tileSize ∧
        ravelerYIndices offset size = claimedTileRange offset.2.1 size.2.1 tileSize) ∧
    (∀ o s t : Nat, o / t ≤ (o + s) / t) ∧
    (∀ o s t : Nat, 0 < (claimedTileRange o s t).length) ∧
    claimedTileRange 0 5 1024 = [0] ∧
    (∀ tsx x : Nat, x ∈ voxelproofXIndices tsx ↔ x < vol.1 / tsx) ∧
    (∀ tsy y : Nat, y ∈ voxelproofYIndices tsy ↔ y < vol.2.1 / tsy) := by
  refine ⟨fun offset size => ⟨rfl, rfl⟩, ?_, ?_, by decide, ?_, ?_⟩
  · intro o s t
    exact Nat.div_le_div_right (Nat.le_add_right o s)
  · intro o s t
    have h1 : o / t ≤ (o + s) / t := Nat.div_le_div_right (Nat.le_add_right o s)
    simp [claimedTileRange, rangeIncl]
    omega
  · intro tsx x
    simp [voxelproofXIndices, List.mem_range]
  · intro tsy y
    simp [voxelproofYIndices, List.mem_range]

set_option maxRecDepth 8192 in
/-- C6: the raveler tile path matches the spec's layout-A rule for all
rows, columns, slices and kinds — bucket directory `(z/1000)*1000` and
unpadded z exactly when z ≥ 1000, otherwise z zero-padded to 3 digits —
with the spec's two examples, and the sub-1000 z component is always
exactly 3 characters. -/
theorem raveler_tile_path_matches_spec :
    (∀ row col z sp, tileFilename row col z sp = specLayoutAPath 1024 row col z sp) ∧
    tileFilename 2 3 1500 false = "1024/0/2/3/g/1000/1500.png" ∧
    tileFilename 2 3 42 true = "1024/0/2/3/s/042.png" ∧
    (∀ z, z < 1000 → (pad3 z).length = 3) := by
  refine ⟨fun _ _ _ _ => rfl, rfl, rfl, ?_⟩
  intro z
  revert z
  decide

/-- C6 witness: the padding fact applied at z = 42. -/
theorem raveler_tile_path_matches_spec_witness : (pad3 42).length = 3 :=
  raveler_tile_path_matches_spec.2.2.2 42 (by decide)

/-- C9: for z range [0,2] and a 2x2 tile grid (tile size 350 over the
700x700 extent), an all-success run issues exactly the two dataset
creations, then 12 grayscale import calls, then 12 label import calls —
z ascending, rows outer, columns inner — each offset's z component equal
to z - zmin, and finally the deferred shutdown, exiting 0. -/
theorem voxelproof_z0to2_grid2x2_trace_eval :
    (vpGrayCmds "u" "root" 0 2 350 350).length = 12 ∧
    (vpLabelCmds "u" "root" 0 2 350 350).length = 12 ∧
    voxelproofRun (fun _ => true) "u" "root" 0 2 350 350 =
      ([Cmd.dataset "grayscale" "grayscale8", Cmd.dataset "labels" "labels32",
        Cmd.serverAdd "grayscale" "u" "0,0,0" "root/z/0/0-0.png",
        Cmd.serverAdd "grayscale" "u" "350,0,0" "root/z/0/0-1.png",
        Cmd.serverAdd "grayscale" "u" "0,350,0" "root/z/0/1-0.png",
        Cmd.serverAdd "grayscale" "u" "350,350,0" "root/z/0/1-1.png",
        Cmd.serverAdd "grayscale" "u" "0,0,1" "root/z/1/0-0.png",
        Cmd.serverAdd "grayscale" "u" "350,0,1" "root/z/1/0-1.png",
        Cmd.serverAdd "grayscale" "u" "0,350,1" "root/z/1/1-0.png",
        Cmd.serverAdd "grayscale" "u" "350,350,1" "root/z/1/1-1.png",
        Cmd.serverAdd "grayscale" "u" "0,0,2" "root/z/2/0-0.png",
        Cmd.serverAdd "grayscale" "u" "350,0,2" "root/z/2/0-1.png",
        Cmd.serverAdd "grayscale" "u" "0,350,2" "root/z/2/1-0.png",
        Cmd.serverAdd "grayscale" "u" "350,350,2" "root/z/2/1-1.png",
        Cmd.serverAdd "labels" "u" "0,0,0" "root/comps/z/0/0-0.png",
        Cmd.serverAdd "labels" "u" "350,0,0" "root/comps/z/0/0-1.png",
        Cmd.serverAdd "labels" "u" "0,350,0" "root/comps/z/0/1-0.png",
        Cmd.serverAdd "labels" "u" "350,350,0" "root/comps/z/0/1-1.png",
        Cmd.serverAdd "labels" "u" "0,0,1" "root/comps/z/1/0-0.png",
        Cmd.serverAdd "labels" "u" "350,0,1" "root/comps/z/1/0-1.png",
        Cmd.serverAdd "labels" "u" "0,350,1" "root/comps/z/1/1-0.png",
        Cmd.serverAdd "labels" "u" "350,350,1" "root/comps/z/1/1-1.png",
        Cmd.serverAdd "labels" "u" "0,0,2" "root/comps/z/2/0-0.png",
        Cmd.serverAdd "labels" "u" "350,0,2" "root/comps/z/2/0-1.png",
        Cmd.serverAdd "labels" "u" "0,350,2" "root/comps/z/2/1-0.png",
        Cmd.serverAdd "labels" "u" "350,350,2" "root/comps/z/2/1-1.png",
        Cmd.shutdown], 0) := by
  refine ⟨by decide, by decide, by decide⟩

/-- C4: the fixed-volume driver issues the deferred shutdown on normal
completion (last command, exit 0) and the interrupt handler issues a
shutdown and exits 0; but on a fatal import error `log.Fatalf` exits via
`os.Exit(1)`, which skips the deferred call: the trace of a run whose
first grayscale import fails ends at that import — no shutdown command
appears — with exit code 1. -/
theorem voxelproof_shutdown_paths_eval :
    (voxelproofRun (fun _ => true) "u" "root" 0 0 350 350).1.getLast? =
      some Cmd.shutdown ∧
    (voxelproofRun (fun _ => true) "u" "root" 0 0 350 350).2 = 0 ∧
    vpInterruptHandler (fun _ => true) [] = ([Cmd.shutdown], 0) ∧
    voxelproofRun (fun n => decide (n < 2)) "u" "root" 0 0 350 350 =
      ([Cmd.dataset "grayscale" "grayscale8", Cmd.dataset "labels" "labels32",
        Cmd.serverAdd "grayscale" "u" "0,0,0" "root/z/0/0-0.png"], 1) := by
  refine ⟨by decide, by decide, by decide, by decide⟩

/-- C5 counterexample: a run whose very first subprocess command (the
grayscale dataset creation) fails — the oracle reports success only from
position 1 on — is not terminated: the labels dataset command and the
shutdown are still issued and the run exits 0, because `runCommand`'s
error is discarded at both dataset-creation call sites. -/
theorem voxelproof_dataset_error_ignored_counterexample :
    (fun n => decide (0 < n)) 0 = false ∧
    voxelproofRun (fun n => decide (0 < n)) "u" "root" 0 0 701 701 =
      ([Cmd.dataset "grayscale" "grayscale8", Cmd.dataset "labels" "labels32",
        Cmd.shutdown], 0) := by
  refine ⟨by decide, by decide⟩

/-- C5 amended: tile-import subprocess errors are fatal — a run that
exits 1 ends at the first failing `server-add` command, with no shutdown
issued — while the two dataset-creation calls discard their errors: any
oracle that succeeds from position 2 on yields exit 0 regardless of the
dataset-creation results. -/
theorem voxelproof_fatal_errors_amended :
    ∀ (oracle : Nat → Bool) (uuid dir : String) (zmin zmax tsx tsy : Nat),
      ((∀ n, 2 ≤ n → oracle n = true) →
        (voxelproofRun oracle uuid dir zmin zmax tsx tsy).2 = 0) ∧
      ((voxelproofRun oracle uuid dir zmin zmax tsx tsy).2 = 1 →
        ∃ t c, (voxelproofRun oracle uuid dir zmin zmax tsx tsy).1 = t ++ [c] ∧
          (∃ ds o p, c = Cmd.serverAdd ds uuid o p) ∧
          oracle t.length = false ∧
          Cmd.shutdown ∉ (voxelproofRun oracle uuid dir zmin zmax tsx tsy).1) := by
  intro oracle uuid dir zmin zmax tsx tsy
  rcases voxelproofRun_cases oracle uuid dir zmin zmax tsx tsy with
    hok | ⟨pre, c, hc, hpre, htr, hor, _⟩ | ⟨pre, c, hc, hpre, htr, hor, _⟩
  · constructor
    · intro _
      rw [hok]
    · intro h
      rw [hok] at h
      simp at h
  · constructor
    · intro hall
      have h2 : 2 ≤ ([Cmd.dataset "grayscale" "grayscale8",
          Cmd.dataset "labels" "labels32"] ++ pre).length := by
        simp
      rw [hall _ h2] at hor
      simp at hor
    · intro _
      obtain ⟨o, p, hcsa⟩ := mem_vpGrayCmds hc
      refine ⟨_, c, (congrArg Prod.fst htr), ⟨"grayscale", o, p, hcsa⟩, hor, ?_⟩
      intro hmem
      rw [congrArg Prod.fst htr] at hmem
      replace hmem : Cmd.shutdown ∈ ([Cmd.dataset "grayscale" "grayscale8",
          Cmd.dataset "labels" "labels32"] ++ pre) ++ [c] := hmem
      rcases List.mem_append.mp hmem with h1 | h1
      · rcases List.mem_append.mp h1 with h3 | h3
        · exact absurd h3 (by decide)
        · obtain ⟨o2, p2, hx⟩ := mem_vpGrayCmds (hpre _ h3)
          exact Cmd.noConfusion hx
      · simp at h1
        rw [← h1] at hcsa
        exact Cmd.noConfusion hcsa
  · constructor
    · intro hall
      have h2 : 2 ≤ ([Cmd.dataset "grayscale" "grayscale8",
          Cmd.dataset "labels" "labels32"] ++
          vpGrayCmds uuid dir zmin zmax tsx tsy ++ pre).length := by
        simp
      rw [hall _ h2] at hor
      simp at hor
    · intro _
      obtain ⟨o, p, hcsa⟩ := mem_vpLabelCmds hc
      refine ⟨_, c, (congrArg Prod.fst htr), ⟨"labels", o, p, hcsa⟩, hor, ?_⟩
      intro hmem
      rw [congrArg Prod.fst htr] at hmem
      replace hmem : Cmd.shutdown ∈ ([Cmd.dataset "grayscale" "grayscale8",
          Cmd.dataset "labels" "labels32"] ++
          vpGrayCmds uuid dir zmin zmax tsx tsy ++ pre) ++ [c] := hmem
      rcases List.mem_append.mp hmem with h1 | h1
      · rcases List.mem_append.mp h1 with h3 | h3
        · rcases List.mem_append.mp h3 with h4 | h4
          · exact absurd h4 (by decide)
          · obtain ⟨o2, p2, hx⟩ := mem_vpGrayCmds h4
            exact Cmd.noConfusion hx
        · obtain ⟨o2, p2, hx⟩ := mem_vpLabelCmds (hpre _ h3)
          exact Cmd.noConfusion hx
      · simp at h1
        rw [← h1] at hcsa
        exact Cmd.noConfusion hcsa

/-- C5 amended witness: both halves applied at concrete runs — an
all-success oracle exits 0, and with the first import call failing the
run's fatal shape is obtained. -/
theorem voxelproof_fatal_errors_amended_witness :
    (voxelproofRun (fun _ => true) "u" "root" 0 0 350 350).2 = 0 ∧
    (∃ t c, (voxelproofRun (fun n => decide (n < 2)) "u" "root" 0 0 350 350).1 =
        t ++ [c] ∧
      (∃ ds o p, c = Cmd.serverAdd ds "u" o p) ∧
      (fun n => decide (n < 2)) t.length = false ∧
      Cmd.shutdown ∉ (voxelproofRun (fun n => decide (n < 2)) "u" "root" 0 0 350 350).1) :=
  ⟨(voxelproof_fatal_errors_amended (fun _ => true) "u" "root" 0 0 350 350).1
      (fun _ _ => rfl),
   (voxelproof_fatal_errors_amended (fun n => decide (n < 2)) "u" "root" 0 0 350 350).2
      (by decide)⟩

/-- C7: scanning the init subprocess's output, the first line matching
the `Root node UUID: token` pattern yields that token as the datastore
handle, and a stream that ends without any matching line fails fatally
with the specific diagnostic message. -/
theorem initDatastore_scan_spec :
    (∀ (pre : List String) (l : String) (post : List String) (t : String),
        (∀ x ∈ pre, scanRootUUID x = none) → scanRootUUID l = some t →
        initDatastoreScan (pre ++ l :: post) = Except.ok t) ∧
    (∀ lines : List String, (∀ x ∈ lines, scanRootUUID x = none) →
        initDatastoreScan lines = Except.error noUUIDMsg) := by
  constructor
  · intro pre
    induction pre with
    | nil =>
        intro l post t _ h
        simp [initDatastoreScan, h]
    | cons a as ih =>
        intro l post t hall h
        have ha : scanRootUUID a = none := hall a (by simp)
        have hstep : initDatastoreScan ((a :: as) ++ l :: post) =
            initDatastoreScan (as ++ l :: post) := by
          simp [initDatastoreScan, ha]
        rw [hstep]
        exact ih l post t (fun x hx => hall x (by simp [hx])) h
  · intro lines
    induction lines with
    | nil => intro _; rfl
    | cons a as ih =>
        intro hall
        have ha : scanRootUUID a = none := hall a (by simp)
        have hstep : initDatastoreScan (a :: as) = initDatastoreScan as := by
          simp [initDatastoreScan, ha]
        rw [hstep]
        exact ih (fun x hx => hall x (by simp [hx]))

/-- C7 witness: a stream whose second line matches yields its token; a
stream with no matching line yields the diagnostic. -/
theorem initDatastore_scan_spec_witness :
    initDatastoreScan ["Starting datastore...", "Root node UUID: ab12cd", "done"] =
      Except.ok "ab12cd" ∧
    initDatastoreScan ["Starting datastore...", "done"] = Except.error noUUIDMsg :=
  ⟨initDatastore_scan_spec.1 ["Starting datastore..."] "Root node UUID: ab12cd"
      ["done"] "ab12cd" (by decide) (by decide),
   initDatastore_scan_spec.2 ["Starting datastore...", "done"] (by decide)⟩

/-- C8: in all three drivers, a run that terminates fatally (exit 1)
ends exactly at the first failing command — it is the last command of
the trace, so no subsequent tile import is ever issued after a
failing import call.  For the raveler driver every earlier command
(all of them imports) succeeded; for the fixed-volume driver every
earlier command from position 2 on (the imports — positions 0 and 1
are the error-discarding dataset creations) succeeded; for the
config-driven driver, where every subprocess error is fatal, every
earlier command succeeded. -/
theorem import_failure_halts :
    (∀ (oracle : Nat → Bool) (loadS loadG : Bool) (d ds u : String)
        (offset size : Nat × Nat × Nat),
      (ravelerRun oracle loadS loadG d ds u offset size).exit = 1 →
      ∃ t c, (ravelerRun oracle loadS loadG d ds u offset size).cmds = t ++ [c] ∧
        oracle t.length = false ∧ ∀ j, j < t.length → oracle j = true) ∧
    (∀ (oracle : Nat → Bool) (uuid dir : String) (zmin zmax tsx tsy : Nat),
      (voxelproofRun oracle uuid dir zmin zmax tsx tsy).2 = 1 →
      ∃ t c, (voxelproofRun oracle uuid dir zmin zmax tsx tsy).1 = t ++ [c] ∧
        oracle t.length = false ∧ ∀ j, 2 ≤ j → j < t.length → oracle j = true) ∧
    (∀ (oracle : Nat → Bool) (uuid dir : String) (zmin zmax tsx tsy volx voly : Nat),
      (cfgRun oracle uuid dir zmin zmax tsx tsy volx voly).2 = 1 →
      ∃ t c, (cfgRun oracle uuid dir zmin zmax tsx tsy volx voly).1 = t ++ [c] ∧
        oracle t.length = false ∧ ∀ j, j < t.length → oracle j = true) := by
  refine ⟨?_, ?_, ?_⟩
  · intro oracle loadS loadG d ds u offset size h
    obtain ⟨t, c, htr, hor, hgood⟩ :=
      ravSlices_fatal oracle loadS loadG d ds u (ravelerCellList offset size)
        (ravelerZIndices offset size) [] [] h
    exact ⟨t, c, htr, hor, fun j hj => hgood j (Nat.zero_le j) hj⟩
  · intro oracle uuid dir zmin zmax tsx tsy h
    rcases voxelproofRun_cases oracle uuid dir zmin zmax tsx tsy with
      hok | ⟨pre, c, hc, hpre, htr, hor, hgood⟩ | ⟨pre, c, hc, hpre, htr, hor, hgood⟩
    · rw [hok] at h
      simp at h
    · exact ⟨_, c, congrArg Prod.fst htr, hor, hgood⟩
    · exact ⟨_, c, congrArg Prod.fst htr, hor, hgood⟩
  · intro oracle uuid dir zmin zmax tsx tsy volx voly h
    rcases runCmds_spec oracle
        ([Cmd.dataset "grayscale" "grayscale8", Cmd.dataset "labels" "labels32"] ++
          cfgGrayCmds uuid dir zmin zmax tsx tsy volx voly ++
          cfgLabelCmds uuid dir zmin zmax tsx tsy volx voly ++ [Cmd.shutdown]) [] with
      ⟨hok, _, _⟩ | ⟨hfail, pre, c, htr, _, _, hor, hgood⟩
    · exfalso
      have h2 : (if (runCmds oracle []
            ([Cmd.dataset "grayscale" "grayscale8", Cmd.dataset "labels" "labels32"] ++
              cfgGrayCmds uuid dir zmin zmax tsx tsy volx voly ++
              cfgLabelCmds uuid dir zmin zmax tsx tsy volx voly ++ [Cmd.shutdown])).2
          then (0 : Nat) else 1) = 1 := h
      rw [hok] at h2
      simp at h2
    · exact ⟨_, c, htr, hor, fun j hj => hgood j (Nat.zero_le j) hj⟩

/-- C8 witness: the three halves applied at concrete fatal runs — a
raveler run whose only import call fails, a fixed-volume run whose
first import call fails, and a config-driven run whose first import
call fails. -/
theorem import_failure_halts_witness :
    (∃ t c, (ravelerRun (fun _ => false) false true "d" "gray" "u"
        (0, 0, 0) (0, 0, 0)).cmds = t ++ [c] ∧
      (fun _ => false : Nat → Bool) t.length = false ∧
      ∀ j, j < t.length → (fun _ => false : Nat → Bool) j = true) ∧
    (∃ t c, (voxelproofRun (fun n => decide (n < 2)) "u" "root" 0 0 350 350).1 =
        t ++ [c] ∧
      (fun n => decide (n < 2)) t.length = false ∧
      ∀ j, 2 ≤ j → j < t.length → (fun n => decide (n < 2)) j = true) ∧
    (∃ t c, (cfgRun (fun n => decide (n < 2)) "u" "root" 0 0 350 350 700 700).1 =
        t ++ [c] ∧
      (fun n => decide (n < 2)) t.length = false ∧
      ∀ j, j < t.length → (fun n => decide (n < 2)) j = true) :=
  ⟨import_failure_halts.1 (fun _ => false) false true "d" "gray" "u"
      (0, 0, 0) (0, 0, 0) (by decide),
   import_failure_halts.2.1 (fun n => decide (n < 2)) "u" "root" 0 0 350 350
      (by decide),
   import_failure_halts.2.2 (fun n => decide (n < 2)) "u" "root" 0 0 350 350 700 700
      (by decide)⟩

/-- C10: every per-slice progress count printed by the raveler driver
equals the number of (row, col) cells of the tile grid, whatever the
flag settings; with both flags unset a run issues no import command at
all yet still prints the full grid-cell count for every slice. -/
theorem raveler_print_count_full_grid :
    ∀ (oracle : Nat → Bool) (loadS loadG : Bool) (d ds u : String)
      (offset size : Nat × Nat × Nat),
      (∀ p ∈ (ravelerRun oracle loadS loadG d ds u offset size).prints,
        p.1 = (ravelerCellList offset size).length) ∧
      (loadS = false → loadG = false →
        ravelerRun oracle loadS loadG d ds u offset size =
          ⟨[], (ravelerZIndices offset size).map
              (fun z => ((ravelerCellList offset size).length, ds, z)), 0⟩) := by
  intro oracle loadS loadG d ds u offset size
  constructor
  · exact ravSlices_prints oracle loadS loadG d ds u (ravelerCellList offset size)
      (ravelerZIndices offset size) [] [] (by simp)
  · intro h1 h2
    subst h1
    subst h2
    have hn := ravSlices_noflags oracle d ds u (ravelerCellList offset size)
      (ravelerZIndices offset size) [] []
    simpa [ravelerRun] using hn

/-- C10 witness: a no-flags run over a single slice and a single grid
cell issues nothing and prints the full count 1. -/
theorem raveler_print_count_full_grid_witness :
    ((1, "gray", 0) : Nat × String × Nat).1 =
      (ravelerCellList (0, 0, 0) (0, 0, 0)).length ∧
    ravelerRun (fun _ => true) false false "d" "gray" "u" (0, 0, 0) (0, 0, 0) =
      ⟨[], (ravelerZIndices (0, 0, 0) (0, 0, 0)).map
          (fun z => ((ravelerCellList (0, 0, 0) (0, 0, 0)).length, "gray", z)), 0⟩ :=
  ⟨(raveler_print_count_full_grid (fun _ => true) false false "d" "gray" "u"
      (0, 0, 0) (0, 0, 0)).1 (1, "gray", 0) (by decide),
   (raveler_print_count_full_grid (fun _ => true) false false "d" "gray" "u"
      (0, 0, 0) (0, 0, 0)).2 rfl rfl⟩

end DvidUtils
